import Mathlib

/-!
Shallow embedding of the `basetypes.Float64Type` slice of
terraform-plugin-framework (file `types/basetypes/float64_type.go`), together
with the fragments of its dependencies (`tftypes.Value`, `path.Path`,
`diag.Diagnostics`) that the code under verification touches.

Modelling decisions:
* A wire number (`*big.Float` payload of a `tftypes.Value`) is embedded as an
  exact rational `ℚ`.  Go's `big.Float` is an arbitrary-precision binary
  float, hence a dyadic rational, a subset of `ℚ`; the spec describes the
  wire payload as an arbitrary-precision number.  `big.Float` infinities are
  outside the model (the wire layer never produces them for configuration
  numbers).
* The accuracy test of `(*big.Float).Float64()` — "is this value exactly a
  binary64?" — is embedded as the computable `float64ExactlyRepresentable`.
* Diagnostic and error texts are built with the exact format strings of the
  source; the `%s` rendering of a `big.Float` is embedded by the injective
  textual rendering `bigFloatText` (num/den form); claims about "contains the
  exact decimal input" are read at this granularity.
-/

set_option maxRecDepth 8000

namespace TfpFw

/-- Fuel-driven split of a natural number into its odd part and the exponent
of its largest power-of-two divisor.  For fuel ≥ n, `oddSplit fuel n = (o, k)`
with `n = o * 2 ^ k`, and `o` odd whenever `n > 0`. -/
def oddSplit : Nat → Nat → Nat × Nat
  | 0, n => (n, 0)
  | fuel+1, n =>
    if n % 2 == 1 || n == 0 then (n, 0)
    else
      let p := oddSplit fuel (n / 2)
      (p.1, p.2 + 1)

/-- Fuel-driven bit length: for fuel ≥ n, the number of binary digits of n
(with 0 digits for n = 0). -/
def bitLen : Nat → Nat → Nat
  | 0, _ => 0
  | fuel+1, n => if n == 0 then 0 else bitLen fuel (n / 2) + 1

/-- The odd part of a natural number (n with all factors of two removed). -/
def oddPart (n : Nat) : Nat := (oddSplit n n).1

/-- The 2-adic valuation of a natural number (0 for n = 0). -/
def twoExp (n : Nat) : Nat := (oddSplit n n).2

/-- The number of binary digits of a natural number. -/
def bitLength (n : Nat) : Nat := bitLen n n

/-- Models the accuracy result of Go's `(*big.Float).Float64()`: `true`
exactly when the rational q is exactly representable as an IEEE-754 binary64,
i.e. q = ± odd * 2^E with bitlength(odd) ≤ 53, E ≥ -1074 and
E + bitlength(odd) ≤ 1024, where E = v₂(|num|) - v₂(den).  (The finite
binary64 values are exactly the numbers m * 2^e with |m| < 2^53 and
-1074 ≤ e ≤ 971.) -/
def float64ExactlyRepresentable (q : ℚ) : Bool :=
  if q.num = 0 then
    true
  else
    let j := twoExp q.num.natAbs
    let k := twoExp q.den
    let L := bitLength (oddPart q.num.natAbs)
    oddPart q.den == 1
      && decide (L ≤ 53)
      && decide (k ≤ j + 1074)
      && decide (j + L ≤ 1024 + k)

namespace tftypes

/-- Wire type descriptors (`tftypes.Type`), restricted to the scalar kinds
exercised by `Float64Type` (`tftypes.Number`) and representatives of the
"anything else" kinds the code compares against. -/
inductive TfType where
  | Number
  | String
  | Bool
deriving DecidableEq, Repr

/-- The concrete Go payload stored inside a known `tftypes.Value`
(`*big.Float` for numbers, `string`, `bool`). -/
inductive TfPayload where
  | num (value : ℚ)
  | str (value : String)
  | bool (value : Bool)
deriving DecidableEq, Repr

/-- The three mutually exclusive states of a `tftypes.Value`: unknown
(`tftypes.UnknownValue`), null (`nil` payload), or known with a payload. -/
inductive TfState where
  | unknown
  | null
  | known (payload : TfPayload)
deriving DecidableEq, Repr

/-- A dynamic wire value (`tftypes.Value`): a (possibly nil) wire type
descriptor paired with a value state. -/
structure Value where
  typ : Option TfType
  state : TfState
deriving DecidableEq, Repr

/-- Models `tftypes.Value.IsKnown`: false exactly for the unknown state. -/
def Value.IsKnown (v : Value) : Bool :=
  match v.state with
  | .unknown => false
  | _ => true

/-- Models `tftypes.Value.IsNull`: true exactly for the null state. -/
def Value.IsNull (v : Value) : Bool :=
  match v.state with
  | .null => true
  | _ => false

/-- Models `in.As(&bigF)` with a `**big.Float` destination as called by the
source after its known/non-null checks: succeeds with the stored big.Float
payload, and fails with an unmarshalling error for any other payload.  (The
null and unknown branches are unreachable at both call sites.) -/
def Value.AsBigFloat (v : Value) : Except String ℚ :=
  match v.state with
  | .known (.num q) => .ok q
  | _ => .error "cannot unmarshal value into *big.Float"

/-- An injective textual rendering of a wire number payload, standing in for
Go's `%s` formatting of a `*big.Float` (the embedding renders the exact
value in num/den form). -/
def bigFloatText (q : ℚ) : String :=
  toString q.num ++ "/" ++ toString q.den

/-- A textual rendering of a whole wire value, standing in for the
`%T with value: %v` formatting of a `tftypes.Value` in the source. -/
def renderValue (v : Value) : String :=
  match v.state with
  | .unknown => "tftypes.Value<unknown>"
  | .null => "tftypes.Value<null>"
  | .known (.num q) => "tftypes.Value<" ++ bigFloatText q ++ ">"
  | .known (.str s) => "tftypes.Value<" ++ s ++ ">"
  | .known (.bool b) => "tftypes.Value<" ++ toString b ++ ">"

end tftypes

namespace path

/-- An attribute path (`path.Path`): the sequence of steps leading to the
attribute a diagnostic is attributed to.  Only carried, never inspected, by
the code under verification. -/
structure Path where
  steps : List String
deriving DecidableEq, Repr

end path

namespace diag

/-- Diagnostic severity (`diag.Severity`). -/
inductive Severity where
  | error
  | warning
deriving DecidableEq, Repr

/-- One diagnostic record (`diag.AttributeErrorDiagnostic` and friends):
severity, summary, detail, and the attribute path it is attributed to. -/
structure Diagnostic where
  severity : Severity
  summary : String
  detail : String
  path : path.Path
deriving DecidableEq, Repr

/-- A diagnostics collection (`diag.Diagnostics`): an ordered list. -/
def Diagnostics := List Diagnostic
deriving instance DecidableEq for Diagnostics

/-- Models `diag.Diagnostics.AddAttributeError`: appends one Error-severity
diagnostic built from path, summary and detail. -/
def Diagnostics.AddAttributeError (d : Diagnostics) (p : path.Path)
    (summary detail : String) : Diagnostics :=
  List.append d [⟨Severity.error, summary, detail, p⟩]

end diag

namespace basetypes

/-- The framework type descriptors (`attr.Type` implementations) that a
`Float64Type` can be compared against via `Equal`'s type assertion
`o.(Float64Type)`.  `Float64Type` is a zero-field struct, so its kind alone
identifies it. -/
inductive AttrType where
  | float64
  | number
  | string
  | bool
deriving DecidableEq, Repr

/-- A Go `float64` that can sit inside a known `Float64Value`: an exact
binary64 rational.  (NaN and the infinities never reach this code path:
`big.Float` cannot represent NaN and the wire layer carries finite
decimals.) -/
def Float64 := { q : ℚ // float64ExactlyRepresentable q = true }

instance : DecidableEq Float64 := fun a b =>
  decidable_of_iff (a.val = b.val) Subtype.ext_iff.symm

/-- Modelled from the spec: `Float64Value` (its file `float64_value.go` is
not under src/; §3 and §4.1 of the spec give the value algebra).  A Float64
value is Null, Unknown, or Known with an exactly-narrowed payload. -/
inductive Float64Value where
  | null
  | unknown
  | known (value : Float64)
deriving DecidableEq

/-- Modelled from the spec: the `NewFloat64Value` constructor. -/
def NewFloat64Value (f : Float64) : Float64Value := .known f

/-- Modelled from the spec: the `NewFloat64Null` constructor. -/
def NewFloat64Null : Float64Value := .null

/-- Modelled from the spec: the `NewFloat64Unknown` constructor. -/
def NewFloat64Unknown : Float64Value := .unknown

/-- Modelled from the spec: `Float64Value.ToTerraformValue` (§4.1 `ToWire`,
the inverse of decoding): the wire value carries the Number wire type and
the value's state, with the exact payload for the known state. -/
def Float64Value.ToTerraformValue : Float64Value → tftypes.Value
  | .unknown => ⟨some .Number, .unknown⟩
  | .null => ⟨some .Number, .null⟩
  | .known f => ⟨some .Number, .known (.num f.val)⟩

/-- Go `context.Context`, opaque and unused by this code. -/
def Ctx := Unit

/-- Models `Float64Type.Equal`: the type assertion `o.(Float64Type)`
succeeds exactly for the Float64Type kind. -/
def Float64Type.Equal (o : AttrType) : Bool :=
  match o with
  | .float64 => true
  | _ => false

/-- Models `Float64Type.String` (named `Float64TypeString` here because a
declaration called `Float64Type.String` would shadow Lean's `String` type
inside the other `Float64Type` method bodies). -/
def Float64TypeString : String := "basetypes.Float64Type"

/-- Models `Float64Type.TerraformType`: always the Number wire type. -/
def Float64Type.TerraformType (_ctx : Ctx) : tftypes.TfType := .Number

/-- The summary string used by every diagnostic of `Float64Type.Validate`. -/
def float64ValidateSummary : String := "Float64 Type Validation Error"

/-- The boilerplate opening of the internal-error ("always an error in the
provider") diagnostic details in `Float64Type.Validate`. -/
def providerErrIntro : String :=
  "An unexpected error was encountered trying to validate an attribute value. This is always an error in the provider. Please report the following to the provider developer:\n\n"

/-- The narrowing-failure message, built identically at the two source sites
(`Float64Type.Validate` and `Float64Type.ValueFromTerraform`):
`fmt.Sprintf("Value %s cannot be represented as a 64-bit floating point.", value)`. -/
def float64NarrowErr (q : ℚ) : String :=
  "Value " ++ tftypes.bigFloatText q ++ " cannot be represented as a 64-bit floating point."

/-- Models `Float64Type.Validate` (float64_type.go lines 55-101), branch for
branch: nil wire type → no diagnostics; non-Number wire type → one
internal-error diagnostic and return; unknown or null → no diagnostics;
`As` failure → one internal-error diagnostic and return; inexact narrowing
→ one narrowing diagnostic and return; otherwise no diagnostics. -/
def Float64Type.Validate (inv : tftypes.Value) (p : path.Path) : diag.Diagnostics :=
  let diags : diag.Diagnostics := []
  match inv.typ with
  | none => diags
  | some t =>
    if !(t == tftypes.TfType.Number) then
      diags.AddAttributeError p float64ValidateSummary
        (providerErrIntro ++
          "Expected Number value, received tftypes.Value with value: " ++
          tftypes.renderValue inv)
    else if !inv.IsKnown || inv.IsNull then
      diags
    else
      match inv.AsBigFloat with
      | .error e =>
        diags.AddAttributeError p float64ValidateSummary
          (providerErrIntro ++ "Cannot convert value to big.Float: " ++ e)
      | .ok value =>
        if !float64ExactlyRepresentable value then
          diags.AddAttributeError p float64ValidateSummary (float64NarrowErr value)
        else
          diags

/-- Models `Float64Type.ValueFromTerraform` (float64_type.go lines 111-134):
unknown → Unknown value; null → Null value; then decode the big.Float
payload (propagating an `As` error) and narrow it, failing with the
precision-loss error when the narrowing is inexact. -/
def Float64Type.ValueFromTerraform (inv : tftypes.Value) :
    Except String Float64Value :=
  if !inv.IsKnown then
    .ok NewFloat64Unknown
  else if inv.IsNull then
    .ok NewFloat64Null
  else
    match inv.AsBigFloat with
    | .error e => .error e
    | .ok bigF =>
      if h : float64ExactlyRepresentable bigF = true then
        .ok (NewFloat64Value ⟨bigF, h⟩)
      else
        .error (float64NarrowErr bigF)

/-- Modelled from the spec: a custom type composed over the base
`Float64Type` (§4.5, and the embedding example of the handling-data docs):
every operation either runs its override or forwards to the base. -/
structure CustomFloat64Type where
  overrideEqual : Option (AttrType → Bool)
  overrideTerraformType : Option (Ctx → tftypes.TfType)
  overrideValidate : Option (tftypes.Value → path.Path → diag.Diagnostics)
  overrideValueFromTerraform : Option (tftypes.Value → Except String Float64Value)

/-- Delegation for `Equal`. -/
def CustomFloat64Type.Equal (c : CustomFloat64Type) (o : AttrType) : Bool :=
  match c.overrideEqual with
  | some f => f o
  | none => Float64Type.Equal o

/-- Delegation for `TerraformType`. -/
def CustomFloat64Type.TerraformType (c : CustomFloat64Type) (ctx : Ctx) : tftypes.TfType :=
  match c.overrideTerraformType with
  | some f => f ctx
  | none => Float64Type.TerraformType ctx

/-- Delegation for `Validate`. -/
def CustomFloat64Type.Validate (c : CustomFloat64Type) (inv : tftypes.Value)
    (p : path.Path) : diag.Diagnostics :=
  match c.overrideValidate with
  | some f => f inv p
  | none => Float64Type.Validate inv p

/-- Delegation for `ValueFromTerraform`. -/
def CustomFloat64Type.ValueFromTerraform (c : CustomFloat64Type)
    (inv : tftypes.Value) : Except String Float64Value :=
  match c.overrideValueFromTerraform with
  | some f => f inv
  | none => Float64Type.ValueFromTerraform inv

end basetypes

/-- The numerator of the narrowing-law decimal of the spec,
`1.79769313486231570814527423731704356798070e+1000`, as the integer
17976931348623157081452742373170435679807 * 10^960. -/
def n0 : Nat := 17976931348623157081452742373170435679807 * 10 ^ 960

/-- The narrowing-law decimal of the spec as an exact rational. -/
def q0 : ℚ := mkRat n0 1

/-- The Known, non-null wire value of wire type Number whose payload is the
narrowing-law decimal. -/
def v0 : tftypes.Value := ⟨some .Number, .known (.num q0)⟩

/-! Arithmetic facts about the representability check. -/

theorem oddSplit_eq (fuel : Nat) : ∀ n : Nat, n ≤ fuel →
    n = (oddSplit fuel n).1 * 2 ^ (oddSplit fuel n).2 := by
  induction fuel with
  | zero =>
    intro n hn
    have : n = 0 := Nat.le_zero.mp hn
    subst this
    simp [oddSplit]
  | succ f ih =>
    intro n hn
    by_cases h : (n % 2 == 1 || n == 0) = true
    · simp [oddSplit, h]
    · have h2 : n % 2 = 0 ∧ n ≠ 0 := by
        simpa [Nat.mod_two_eq_zero_or_one, -ne_eq] using h
      have hrec : n / 2 = (oddSplit f (n / 2)).1 * 2 ^ (oddSplit f (n / 2)).2 :=
        ih (n / 2) (by omega)
      have hsplit : oddSplit (f + 1) n =
          ((oddSplit f (n / 2)).1, (oddSplit f (n / 2)).2 + 1) := by
        simp [oddSplit, h]
      rw [hsplit]
      have hn2 : n = 2 * (n / 2) := by omega
      calc n = 2 * (n / 2) := hn2
        _ = 2 * ((oddSplit f (n / 2)).1 * 2 ^ (oddSplit f (n / 2)).2) := by rw [← hrec]
        _ = (oddSplit f (n / 2)).1 * 2 ^ ((oddSplit f (n / 2)).2 + 1) := by ring

theorem bitLen_bound (fuel : Nat) : ∀ n : Nat, n ≤ fuel →
    n < 2 ^ bitLen fuel n := by
  induction fuel with
  | zero =>
    intro n hn
    have : n = 0 := Nat.le_zero.mp hn
    subst this
    simp [bitLen]
  | succ f ih =>
    intro n hn
    by_cases h : (n == 0) = true
    · have : n = 0 := by simpa using h
      subst this
      simp [bitLen]
    · have hne : n ≠ 0 := by simpa using h
      have hrec : n / 2 < 2 ^ bitLen f (n / 2) := ih (n / 2) (by omega)
      have hstep : bitLen (f + 1) n = bitLen f (n / 2) + 1 := by
        simp [bitLen, h]
      rw [hstep, pow_succ]
      omega

/-- Reassembly: the odd part times the extracted power of two gives back n. -/
theorem oddPart_mul_twoExp (n : Nat) : oddPart n * 2 ^ twoExp n = n :=
  (oddSplit_eq n n le_rfl).symm

/-- Every natural number is below 2 to its bit length. -/
theorem lt_two_pow_bitLength (n : Nat) : n < 2 ^ bitLength n :=
  bitLen_bound n n le_rfl

/-- Soundness bound: any rational that passes the binary64 exactness check
has magnitude below 2^1024, i.e. |num| < 2^1024 * den. -/
theorem repr_num_bound (q : ℚ) (h : float64ExactlyRepresentable q = true) :
    q.num.natAbs < 2 ^ 1024 * q.den := by
  by_cases h0 : q.num = 0
  · have hd : 0 < q.den := q.pos
    simp [h0]
    positivity
  · rw [float64ExactlyRepresentable, if_neg h0] at h
    simp only [Bool.and_eq_true, beq_iff_eq, decide_eq_true_eq] at h
    obtain ⟨⟨⟨hds, hL⟩, hk⟩, hjL⟩ := h
    have eden : q.den = 2 ^ twoExp q.den := by
      conv_lhs => rw [← oddPart_mul_twoExp q.den]
      rw [hds, one_mul]
    have enum : q.num.natAbs = oddPart q.num.natAbs * 2 ^ twoExp q.num.natAbs :=
      (oddPart_mul_twoExp q.num.natAbs).symm
    have hodd : oddPart q.num.natAbs < 2 ^ bitLength (oddPart q.num.natAbs) :=
      lt_two_pow_bitLength _
    calc q.num.natAbs
        = oddPart q.num.natAbs * 2 ^ twoExp q.num.natAbs := enum
      _ < 2 ^ bitLength (oddPart q.num.natAbs) * 2 ^ twoExp q.num.natAbs := by
          exact (Nat.mul_lt_mul_right (by positivity)).mpr hodd
      _ = 2 ^ (bitLength (oddPart q.num.natAbs) + twoExp q.num.natAbs) := by
          rw [pow_add]
      _ ≤ 2 ^ (1024 + twoExp q.den) := Nat.pow_le_pow_right (by norm_num) (by omega)
      _ = 2 ^ 1024 * 2 ^ twoExp q.den := by rw [pow_add]
      _ = 2 ^ 1024 * q.den := by rw [← eden]

/-- The numerator and denominator of the narrowing-law decimal. -/
theorem q0_num_den : q0.num = (n0 : Int) ∧ q0.den = 1 := by
  constructor <;> decide

/-- The narrowing-law decimal exceeds every finite binary64 and therefore
fails the exactness check. -/
theorem q0_not_representable : float64ExactlyRepresentable q0 = false := by
  cases hb : float64ExactlyRepresentable q0 with
  | false => rfl
  | true =>
    exfalso
    have hlt := repr_num_bound q0 hb
    rw [q0_num_den.1, q0_num_den.2] at hlt
    have hge : 2 ^ 1024 * 1 ≤ (n0 : Int).natAbs := by decide
    omega

/-- The narrowing-failure message never carries the internal-error
boilerplate: its first character is the V of "Value ", while the
boilerplate opens with "An unexpected error". -/
theorem narrowErr_ne_providerIntro (q : ℚ) (s : String) :
    basetypes.float64NarrowErr q ≠ basetypes.providerErrIntro ++ s := by
  intro h
  have hV : (basetypes.float64NarrowErr q).data.head? = some 'V' := by
    simp only [basetypes.float64NarrowErr]
    rw [String.data_append, String.data_append]
    rfl
  rw [h, String.data_append] at hV
  have hA : (basetypes.providerErrIntro.data ++ s.data).head? = some 'A' := rfl
  rw [hA] at hV
  simp at hV

/-! Claim theorems. -/

/-- C1: for every attribute path p, Float64Type.Validate on the Known,
non-null, Number-typed wire value whose payload is the decimal
1.79769313486231570814527423731704356798070e+1000 returns exactly one
diagnostic, of severity Error, attributed to p. -/
theorem C1_validate_narrowing_law (p : path.Path) :
    ∃ d : diag.Diagnostic, basetypes.Float64Type.Validate v0 p = [d] ∧
      d.severity = diag.Severity.error ∧ d.path = p := by
  refine ⟨⟨diag.Severity.error, basetypes.float64ValidateSummary,
    basetypes.float64NarrowErr q0, p⟩, ?_, rfl, rfl⟩
  simp [basetypes.Float64Type.Validate, v0, tftypes.Value.IsKnown,
    tftypes.Value.IsNull, tftypes.Value.AsBigFloat, q0_not_representable,
    diag.Diagnostics.AddAttributeError]

/-- C5: for every wire value with a non-nil, non-Number wire type and every
path p, Validate returns exactly one Error diagnostic at p whose detail
opens with the internal "always an error in the provider" boilerplate, and
records nothing else. -/
theorem C5_validate_wrong_wire_type (v : tftypes.Value) (t : tftypes.TfType)
    (p : path.Path) (ht : v.typ = some t) (hne : t ≠ tftypes.TfType.Number) :
    ∃ d : diag.Diagnostic, basetypes.Float64Type.Validate v p = [d] ∧
      d.severity = diag.Severity.error ∧ d.path = p ∧
      ∃ s, d.detail = basetypes.providerErrIntro ++ s := by
  refine ⟨⟨diag.Severity.error, basetypes.float64ValidateSummary,
    basetypes.providerErrIntro ++
      "Expected Number value, received tftypes.Value with value: " ++
      tftypes.renderValue v, p⟩, ?_, rfl, rfl,
    "Expected Number value, received tftypes.Value with value: " ++
      tftypes.renderValue v, ?_⟩
  · have hbeq : (t == tftypes.TfType.Number) = false := by
      simp [hne]
    simp [basetypes.Float64Type.Validate, ht, hbeq,
      diag.Diagnostics.AddAttributeError]
  · exact String.append_assoc _ _ _

/-- Witness for C5 at a String-typed wire value. -/
theorem C5_witness :
    ∃ d : diag.Diagnostic,
      basetypes.Float64Type.Validate ⟨some .String, .known (.str "x")⟩ ⟨[]⟩ = [d] ∧
      d.severity = diag.Severity.error ∧ d.path = ⟨[]⟩ ∧
      ∃ s, d.detail = basetypes.providerErrIntro ++ s :=
  C5_validate_wrong_wire_type ⟨some .String, .known (.str "x")⟩
    tftypes.TfType.String ⟨[]⟩ rfl (by decide)

/-- C6: Float64Type.Equal is structural: it accepts exactly the descriptors
of kind Float64Type and rejects every other kind. -/
theorem C6_equal_structural (o : basetypes.AttrType) :
    basetypes.Float64Type.Equal o = true ↔ o = basetypes.AttrType.float64 := by
  cases o <;> simp [basetypes.Float64Type.Equal]

/-- C8: Float64Type.TerraformType is the Number wire type for every context,
and Float64Type.String is the stable identifier "basetypes.Float64Type". -/
theorem C8_wire_type_and_name :
    (∀ ctx : basetypes.Ctx,
      basetypes.Float64Type.TerraformType ctx = tftypes.TfType.Number) ∧
    basetypes.Float64TypeString = "basetypes.Float64Type" :=
  ⟨fun _ => rfl, rfl⟩

/-- C9: Validate returns no diagnostics when the wire type is nil, or when
the value is Number-typed and null, or Number-typed and unknown. -/
theorem C9_validate_skips (v : tftypes.Value) (p : path.Path)
    (h : v.typ = none ∨
      (v.typ = some tftypes.TfType.Number ∧ v.IsNull = true) ∨
      (v.typ = some tftypes.TfType.Number ∧ v.IsKnown = false)) :
    basetypes.Float64Type.Validate v p = [] := by
  obtain ⟨typ, state⟩ := v
  rcases h with h | ⟨h1, h2⟩ | ⟨h1, h2⟩
  · simp only at h
    subst h
    rfl
  · simp only at h1
    subst h1
    cases state with
    | null => rfl
    | unknown => simp [tftypes.Value.IsNull] at h2
    | known pl => simp [tftypes.Value.IsNull] at h2
  · simp only at h1
    subst h1
    cases state with
    | unknown => rfl
    | null => simp [tftypes.Value.IsKnown] at h2
    | known pl => simp [tftypes.Value.IsKnown] at h2

/-- Witness for C9 at a nil-wire-type value, a null Number value and an
unknown Number value. -/
theorem C9_witness :
    basetypes.Float64Type.Validate ⟨none, .known (.num (mkRat 1 3))⟩ ⟨[]⟩ = [] ∧
    basetypes.Float64Type.Validate ⟨some .Number, .null⟩ ⟨[]⟩ = [] ∧
    basetypes.Float64Type.Validate ⟨some .Number, .unknown⟩ ⟨[]⟩ = [] :=
  ⟨C9_validate_skips _ _ (Or.inl rfl),
   C9_validate_skips _ _ (Or.inr (Or.inl ⟨rfl, rfl⟩)),
   C9_validate_skips _ _ (Or.inr (Or.inr ⟨rfl, rfl⟩))⟩

/-- C2: ValueFromTerraform maps every unknown wire value to the Unknown
Float64, every null wire value to the Null Float64, and a Known non-null
Number wire value either to the Known Float64 holding the exactly-narrowed
payload or to the precision-loss failure. -/
theorem C2_convert_three_branches (v : tftypes.Value) (q : ℚ) :
    (v.IsKnown = false →
      basetypes.Float64Type.ValueFromTerraform v = .ok basetypes.NewFloat64Unknown)
    ∧ (v.IsNull = true →
      basetypes.Float64Type.ValueFromTerraform v = .ok basetypes.NewFloat64Null)
    ∧ (v.typ = some tftypes.TfType.Number → v.state = .known (.num q) →
      (∀ h : float64ExactlyRepresentable q = true,
        basetypes.Float64Type.ValueFromTerraform v =
          .ok (basetypes.NewFloat64Value ⟨q, h⟩))
      ∧ (float64ExactlyRepresentable q = false →
        basetypes.Float64Type.ValueFromTerraform v =
          .error (basetypes.float64NarrowErr q))) := by
  obtain ⟨typ, st⟩ := v
  refine ⟨?_, ?_, ?_⟩
  · intro h
    cases st with
    | unknown => rfl
    | null => simp [tftypes.Value.IsKnown] at h
    | known pl => simp [tftypes.Value.IsKnown] at h
  · intro h
    cases st with
    | null => rfl
    | unknown => simp [tftypes.Value.IsNull] at h
    | known pl => simp [tftypes.Value.IsNull] at h
  · intro _ hstate
    simp only at hstate
    subst hstate
    constructor
    · intro h
      simp [basetypes.Float64Type.ValueFromTerraform, tftypes.Value.IsKnown,
        tftypes.Value.IsNull, tftypes.Value.AsBigFloat, h]
    · intro h
      simp [basetypes.Float64Type.ValueFromTerraform, tftypes.Value.IsKnown,
        tftypes.Value.IsNull, tftypes.Value.AsBigFloat, h]

/-- Witness for C2 at an unknown, a null, an exactly-narrowable and a
non-narrowable Number wire value. -/
theorem C2_witness :
    basetypes.Float64Type.ValueFromTerraform ⟨some .Number, .unknown⟩ =
      .ok basetypes.NewFloat64Unknown ∧
    basetypes.Float64Type.ValueFromTerraform ⟨some .Number, .null⟩ =
      .ok basetypes.NewFloat64Null ∧
    basetypes.Float64Type.ValueFromTerraform ⟨some .Number, .known (.num (mkRat 1 2))⟩ =
      .ok (basetypes.NewFloat64Value ⟨mkRat 1 2, by decide⟩) ∧
    basetypes.Float64Type.ValueFromTerraform ⟨some .Number, .known (.num (mkRat 1 3))⟩ =
      .error (basetypes.float64NarrowErr (mkRat 1 3)) :=
  ⟨(C2_convert_three_branches ⟨some .Number, .unknown⟩ (mkRat 1 2)).1 rfl,
   (C2_convert_three_branches ⟨some .Number, .null⟩ (mkRat 1 2)).2.1 rfl,
   ((C2_convert_three_branches ⟨some .Number, .known (.num (mkRat 1 2))⟩
      (mkRat 1 2)).2.2 rfl rfl).1 (by decide),
   ((C2_convert_three_branches ⟨some .Number, .known (.num (mkRat 1 3))⟩
      (mkRat 1 3)).2.2 rfl rfl).2 (by decide)⟩

/-- C3 counterexample: at the narrowing-law decimal, the conversion
operation ValueFromTerraform does NOT collect a diagnostic and carry on —
it aborts, returning an error and no value (its result type has no
diagnostics channel at all), refuting "collected, never aborting the
operation" for ValueFromTerraform. -/
theorem C3_counterexample :
    basetypes.Float64Type.ValueFromTerraform v0 =
      .error (basetypes.float64NarrowErr q0) := by
  simp [basetypes.Float64Type.ValueFromTerraform, v0, tftypes.Value.IsKnown,
    tftypes.Value.IsNull, tftypes.Value.AsBigFloat, q0_not_representable]

/-- C3 (amended): a narrowing failure is reported by Validate as a single
collected Error diagnostic at the given path whose message is exactly the
user-facing narrowing text — it carries the offending value's rendering and
names the 64-bit floating point target, and never carries the
internal-provider-error boilerplate — while ValueFromTerraform reports the
same message but as a conversion-aborting error value rather than a
collected diagnostic. -/
theorem C3_narrowing_failure_reporting (v : tftypes.Value) (p : path.Path)
    (q : ℚ) (ht : v.typ = some tftypes.TfType.Number)
    (hs : v.state = .known (.num q))
    (hq : float64ExactlyRepresentable q = false) :
    basetypes.Float64Type.Validate v p =
      [⟨diag.Severity.error, basetypes.float64ValidateSummary,
        basetypes.float64NarrowErr q, p⟩] ∧
    basetypes.Float64Type.ValueFromTerraform v =
      .error (basetypes.float64NarrowErr q) ∧
    (∃ a b, basetypes.float64NarrowErr q = a ++ tftypes.bigFloatText q ++ b) ∧
    (∃ a b, basetypes.float64NarrowErr q = a ++ "64-bit floating point" ++ b) ∧
    (∀ s, basetypes.float64NarrowErr q ≠ basetypes.providerErrIntro ++ s) := by
  obtain ⟨typ, st⟩ := v
  simp only at ht hs
  subst ht
  subst hs
  refine ⟨?_, ?_, ?_, ?_, narrowErr_ne_providerIntro q⟩
  · simp [basetypes.Float64Type.Validate, tftypes.Value.IsKnown,
      tftypes.Value.IsNull, tftypes.Value.AsBigFloat, hq,
      diag.Diagnostics.AddAttributeError]
  · simp [basetypes.Float64Type.ValueFromTerraform, tftypes.Value.IsKnown,
      tftypes.Value.IsNull, tftypes.Value.AsBigFloat, hq]
  · exact ⟨"Value ", " cannot be represented as a 64-bit floating point.", rfl⟩
  · refine ⟨("Value " ++ tftypes.bigFloatText q) ++ " cannot be represented as a ",
      ".", ?_⟩
    have hlit : (" cannot be represented as a 64-bit floating point." : String) =
        " cannot be represented as a " ++ ("64-bit floating point" ++ ".") := by
      decide
    calc basetypes.float64NarrowErr q
        = ("Value " ++ tftypes.bigFloatText q) ++
            " cannot be represented as a 64-bit floating point." := rfl
      _ = ("Value " ++ tftypes.bigFloatText q) ++
            (" cannot be represented as a " ++ ("64-bit floating point" ++ ".")) := by
          rw [hlit]
      _ = (("Value " ++ tftypes.bigFloatText q) ++ " cannot be represented as a ") ++
            ("64-bit floating point" ++ ".") := (String.append_assoc _ _ _).symm
      _ = ((("Value " ++ tftypes.bigFloatText q) ++ " cannot be represented as a ") ++
            "64-bit floating point") ++ "." := (String.append_assoc _ _ _).symm

/-- Witness for C3 at the non-narrowable payload 1/3. -/
theorem C3_witness :
    basetypes.Float64Type.Validate ⟨some .Number, .known (.num (mkRat 1 3))⟩ ⟨[]⟩ =
      [⟨diag.Severity.error, basetypes.float64ValidateSummary,
        basetypes.float64NarrowErr (mkRat 1 3), ⟨[]⟩⟩] ∧
    basetypes.Float64Type.ValueFromTerraform ⟨some .Number, .known (.num (mkRat 1 3))⟩ =
      .error (basetypes.float64NarrowErr (mkRat 1 3)) ∧
    (∃ a b, basetypes.float64NarrowErr (mkRat 1 3) =
      a ++ tftypes.bigFloatText (mkRat 1 3) ++ b) ∧
    (∃ a b, basetypes.float64NarrowErr (mkRat 1 3) =
      a ++ "64-bit floating point" ++ b) ∧
    (∀ s, basetypes.float64NarrowErr (mkRat 1 3) ≠ basetypes.providerErrIntro ++ s) :=
  C3_narrowing_failure_reporting ⟨some .Number, .known (.num (mkRat 1 3))⟩ ⟨[]⟩
    (mkRat 1 3) rfl rfl (by decide)

/-- C4: decoding the wire encoding of any Known Float64 value yields, with
no error, a structurally equal value. -/
theorem C4_round_trip (f : basetypes.Float64) :
    basetypes.Float64Type.ValueFromTerraform
        (basetypes.Float64Value.ToTerraformValue (basetypes.NewFloat64Value f)) =
      .ok (basetypes.NewFloat64Value f) := by
  obtain ⟨q, hq⟩ := f
  simp [basetypes.NewFloat64Value, basetypes.Float64Value.ToTerraformValue,
    basetypes.Float64Type.ValueFromTerraform, tftypes.Value.IsKnown,
    tftypes.Value.IsNull, tftypes.Value.AsBigFloat, hq]

/-- Witness for C4 at the payload 1/2. -/
theorem C4_witness :
    basetypes.Float64Type.ValueFromTerraform
        (basetypes.Float64Value.ToTerraformValue
          (basetypes.NewFloat64Value ⟨mkRat 1 2, by decide⟩)) =
      .ok (basetypes.NewFloat64Value ⟨mkRat 1 2, by decide⟩) :=
  C4_round_trip ⟨mkRat 1 2, by decide⟩

/-- C7: a custom type composed over the base Float64Type with zero
overridden operations behaves identically to the base type on all inputs of
Equal, TerraformType, Validate and ValueFromTerraform. -/
theorem C7_zero_override_transparent (c : basetypes.CustomFloat64Type)
    (h1 : c.overrideEqual = none) (h2 : c.overrideTerraformType = none)
    (h3 : c.overrideValidate = none) (h4 : c.overrideValueFromTerraform = none) :
    (∀ o, c.Equal o = basetypes.Float64Type.Equal o) ∧
    (∀ ctx, c.TerraformType ctx = basetypes.Float64Type.TerraformType ctx) ∧
    (∀ v p, c.Validate v p = basetypes.Float64Type.Validate v p) ∧
    (∀ v, c.ValueFromTerraform v = basetypes.Float64Type.ValueFromTerraform v) := by
  obtain ⟨e, tt, va, vf⟩ := c
  dsimp only at h1 h2 h3 h4
  subst h1
  subst h2
  subst h3
  subst h4
  exact ⟨fun _ => rfl, fun _ => rfl, fun _ _ => rfl, fun _ => rfl⟩

/-- Witness for C7: the no-override custom type agrees with the base on
sample inputs of each operation. -/
theorem C7_witness :
    basetypes.CustomFloat64Type.Equal ⟨none, none, none, none⟩
        basetypes.AttrType.number =
      basetypes.Float64Type.Equal basetypes.AttrType.number ∧
    basetypes.CustomFloat64Type.TerraformType ⟨none, none, none, none⟩ () =
      basetypes.Float64Type.TerraformType () ∧
    basetypes.CustomFloat64Type.Validate ⟨none, none, none, none⟩
        ⟨some .Number, .null⟩ ⟨[]⟩ =
      basetypes.Float64Type.Validate ⟨some .Number, .null⟩ ⟨[]⟩ ∧
    basetypes.CustomFloat64Type.ValueFromTerraform ⟨none, none, none, none⟩
        ⟨some .Number, .null⟩ =
      basetypes.Float64Type.ValueFromTerraform ⟨some .Number, .null⟩ :=
  have h := C7_zero_override_transparent ⟨none, none, none, none⟩ rfl rfl rfl rfl
  ⟨h.1 _, h.2.1 _, h.2.2.1 _ _, h.2.2.2 _⟩

/-- C10: on Number-typed wire values, Validate accepts (returns no
diagnostics) exactly when ValueFromTerraform succeeds. -/
theorem C10_validate_agrees_with_convert (v : tftypes.Value) (p : path.Path)
    (h : v.typ = some tftypes.TfType.Number) :
    (basetypes.Float64Type.Validate v p = [] ↔
      ∃ r, basetypes.Float64Type.ValueFromTerraform v = .ok r) := by
  obtain ⟨typ, st⟩ := v
  simp only at h
  subst h
  cases st with
  | unknown =>
    simp [basetypes.Float64Type.Validate, basetypes.Float64Type.ValueFromTerraform,
      tftypes.Value.IsKnown, tftypes.Value.IsNull]
  | null =>
    simp [basetypes.Float64Type.Validate, basetypes.Float64Type.ValueFromTerraform,
      tftypes.Value.IsKnown, tftypes.Value.IsNull]
  | known pl =>
    cases pl with
    | num q =>
      cases hb : float64ExactlyRepresentable q with
      | true =>
        simp [basetypes.Float64Type.Validate, basetypes.Float64Type.ValueFromTerraform,
          tftypes.Value.IsKnown, tftypes.Value.IsNull, tftypes.Value.AsBigFloat, hb]
      | false =>
        simp [basetypes.Float64Type.Validate, basetypes.Float64Type.ValueFromTerraform,
          tftypes.Value.IsKnown, tftypes.Value.IsNull, tftypes.Value.AsBigFloat, hb,
          diag.Diagnostics.AddAttributeError]
    | str s =>
      simp [basetypes.Float64Type.Validate, basetypes.Float64Type.ValueFromTerraform,
        tftypes.Value.IsKnown, tftypes.Value.IsNull, tftypes.Value.AsBigFloat,
        diag.Diagnostics.AddAttributeError]
    | bool b =>
      simp [basetypes.Float64Type.Validate, basetypes.Float64Type.ValueFromTerraform,
        tftypes.Value.IsKnown, tftypes.Value.IsNull, tftypes.Value.AsBigFloat,
        diag.Diagnostics.AddAttributeError]

/-- Witness for C10 at a null Number-typed wire value. -/
theorem C10_witness :
    basetypes.Float64Type.Validate ⟨some .Number, .null⟩ ⟨[]⟩ = [] ↔
      ∃ r, basetypes.Float64Type.ValueFromTerraform ⟨some .Number, .null⟩ = .ok r :=
  C10_validate_agrees_with_convert ⟨some .Number, .null⟩ ⟨[]⟩ rfl

end TfpFw
